import Mathlib

/-!
Shallow embedding of the LegoOS checkpoint barrier-and-capture subsystem
(`managers/processor/checkpoint/core.c`).

The C file coordinates a thread-group rendezvous: a Dispatcher marks every
thread of a process as needing a checkpoint and wakes/kicks it; each thread
later runs `checkpoint_thread`, where non-leaders park in `TASK_CHECKPOINTING`
while the group leader busy-polls an atomic arrival counter and, on full
arrival, runs the snapshot orchestrator `__do_checkpoint_process`; on barrier
timeout the leader broadly wakes everyone and aborts.

External collaborators (kmalloc, `save_open_files`, `save_signals`, the
scheduler's wake primitive, pid lookup) are abstracted as oracle parameters;
each modelled function returns, besides the C return value, the list of
observable events it performs (captures, reverts, frees, wakes, logs, counter
updates), so control-flow claims become statements about the event trace.
-/

namespace LegoCheckpoint

/-- MSEC_PER_SEC from the kernel headers. -/
def MSEC_PER_SEC : Nat := 1000

/-- `checkpoint_barrier_timeout_msec` (core.c lines 25-30): under
`CONFIG_CHECKPOINT_DEBUG` it is `5 * MSEC_PER_SEC`, otherwise `500`.
The build flag is the `debugBuild` argument. -/
def checkpoint_barrier_timeout_msec (debugBuild : Bool) : Nat :=
  if debugBuild then 5 * MSEC_PER_SEC else 500

/-- `checkpoint_job_timeout_msec` (core.c line 33). -/
def checkpoint_job_timeout_msec : Nat := 10 * MSEC_PER_SEC

/-- The `TASK_CHECKPOINTING` scheduling-state value. Its numeric value comes
from a header outside this fragment; only its distinctness matters here, so it
is fixed symbolically. -/
def TASK_CHECKPOINTING : Int := 64

/-- A `struct task_struct`, restricted to the fields this subsystem touches:
pid, tgid, the scheduling run state `state`, and the `TIF_NEED_CHECKPOINT`
thread flag. -/
structure Task where
  pid : Int
  tgid : Int
  state : Int
  needCheckpoint : Bool
deriving Repr, DecidableEq

/-- A thread group: the group leader's pid, the `for_each_thread` list
(leader included), `signal->nr_threads`, and the leader's atomic
`process_barrier` counter. -/
structure TG where
  leaderPid : Int
  threads : List Task
  nrThreads : Nat
  barrier : Int
deriving Repr, DecidableEq

/-- One `struct ss_task_struct` entry: per-thread fragment keyed by pid
(the register payload written by `save_thread_regs` is opaque here). -/
structure SSTask where
  pid : Int
deriving Repr, DecidableEq

/-- `struct process_snapshot`: thread count, the per-thread fragment array,
and whether the process-wide open-file and signal fragments were filled. -/
structure ProcessSnapshot where
  nrTasks : Nat
  tasks : List SSTask
  filesSaved : Bool
  signalsSaved : Bool
deriving Repr, DecidableEq

/-- Observable events of the snapshot orchestrator. `alloc n` is a successful
`kmalloc` of an `n`-entry fragment array; `kfree` frees it. -/
inductive OEv where
  | alloc (n : Nat)
  | saveOpenFiles
  | saveSignals
  | saveThreadRegs (pid : Int)
  | revertOpenFiles
  | kfree
  | preemptDisable
  | preemptEnableNoResched
deriving Repr, DecidableEq

/-- Oracle for the external capture collaborators: whether `kmalloc`
succeeds, and the return codes of `save_open_files` and `save_signals`
(0 is success). `save_thread_regs` returns void in the source. -/
structure CaptureEnv where
  allocOk : Bool
  openFilesRet : Int
  signalsRet : Int
deriving Repr, DecidableEq

/-- Result of the orchestrator: the C `int` return value, the event trace,
and the value of the function-local `ps` at the success return point
(`none` on every failure path). Only `ret` crosses the C call boundary:
`ps` is a stack local of `__do_checkpoint_process`. -/
structure CkptResult where
  ret : Int
  events : List OEv
  localPS : Option ProcessSnapshot
deriving Repr, DecidableEq

/-- `__do_checkpoint_process` (core.c lines 65-109): allocate the fragment
array sized by `nr_threads`; `save_open_files`, then `save_signals` (reverting
the file capture and freeing the array if signals fail, freeing the array if
files fail); then one `save_thread_regs` per thread, each entry keyed by
`t->pid`. Returns 0 on success without freeing the array. -/
def __do_checkpoint_process (env : CaptureEnv) (leader : TG) : CkptResult :=
  let n := leader.nrThreads
  if env.allocOk = false then
    { ret := -12, events := [], localPS := none }
  else if env.openFilesRet ≠ 0 then
    { ret := env.openFilesRet,
      events := [.alloc n, .saveOpenFiles, .kfree],
      localPS := none }
  else if env.signalsRet ≠ 0 then
    { ret := env.signalsRet,
      events := [.alloc n, .saveOpenFiles, .saveSignals, .revertOpenFiles, .kfree],
      localPS := none }
  else
    { ret := 0,
      events := [.alloc n, .saveOpenFiles, .saveSignals] ++
        leader.threads.map (fun t => .saveThreadRegs t.pid),
      localPS := some { nrTasks := n,
                        tasks := leader.threads.map (fun t => { pid := t.pid }),
                        filesSaved := true, signalsSaved := true } }

/-- `do_checkpoint_process` (core.c lines 111-120): run the orchestrator with
preemption disabled, re-enabled afterwards without rescheduling. -/
def do_checkpoint_process (env : CaptureEnv) (leader : TG) : CkptResult :=
  let r := __do_checkpoint_process env leader
  { r with events := .preemptDisable :: r.events ++ [.preemptEnableNoResched] }

/-- What `__do_checkpoint_process` hands back to its caller: the C function
returns `int` only; the snapshot struct never crosses the call boundary. -/
def exposed_to_caller (env : CaptureEnv) (leader : TG) : Int :=
  (__do_checkpoint_process env leader).ret

/-- Observable events of `checkpoint_thread` and its wake helpers. -/
inductive CTEv where
  | incBarrier
  | park
  | restoreState (s : Int)
  | capture
  | wakeScoped (pid : Int)
  | warnWakeFail (pid : Int)
  | logThread (pid : Int) (state : Int) (pending : Bool)
  | wakeBroad (pid : Int)
  | resetBarrier
  | clearFlag (pid : Int)
deriving Repr, DecidableEq

/-- `wake_up_thread_group` (core.c lines 122-137): under `tasklist_lock`,
for every thread other than the leader, `wake_up_state(t, TASK_CHECKPOINTING)`
and a WARN if the wake found no matching blocked context.  The `wakeOk`
oracle (keyed by pid) tells whether each wake succeeds. -/
def wake_up_thread_group (wakeOk : Int → Bool) (g : TG) : List CTEv :=
  (g.threads.filter (fun t => t.pid ≠ g.leaderPid)).flatMap
    (fun t => .wakeScoped t.pid ::
      (if wakeOk t.pid then [] else [.warnWakeFail t.pid]))

/-- `barrier_timeout_wakeup` (core.c lines 139-157): under `tasklist_lock`,
for every thread in the group (leader included) log its pid, state and
`TIF_NEED_CHECKPOINT` flag, then `wake_up_state(t, TASK_ALL)` — the broad,
any-state wake. -/
def barrier_timeout_wakeup (g : TG) : List CTEv :=
  g.threads.flatMap
    (fun t => [.logThread t.pid t.state t.needCheckpoint, .wakeBroad t.pid])

/-- Result of one `checkpoint_thread` invocation: the C return value, the
calling task and thread group after the call, the event trace, and the
(ignored) result of `do_checkpoint_process` when it ran. -/
structure CTResult where
  ret : Int
  finalTask : Task
  finalGroup : TG
  events : List CTEv
  captureResult : Option CkptResult
deriving Repr, DecidableEq

/-- `checkpoint_thread` (core.c lines 159-212). `BUG_ON(!TIF_NEED_CHECKPOINT)`
is modelled as `none` (fatal). Otherwise the task saves `p->state`, increments
the leader's `process_barrier`, and branches: a non-leader parks in
`TASK_CHECKPOINTING`, is later released, and restores its saved state; the
leader polls the barrier against `nr_threads` bounded by the timeout — the
`reached` oracle abstracts whether full arrival beat the clock.  On full
arrival the leader runs `do_checkpoint_process` (discarding its result), wakes
the group out of `TASK_CHECKPOINTING`, and zeroes the barrier; on timeout it
broadly wakes everyone and zeroes the barrier, with no capture.  Either way
the caller clears its own `TIF_NEED_CHECKPOINT` and returns 0. -/
def checkpoint_thread (env : CaptureEnv) (wakeOk : Int → Bool) (reached : Bool)
    (g : TG) (p : Task) : Option CTResult :=
  if p.needCheckpoint = false then none
  else
    let savedState := p.state
    if p.pid ≠ g.leaderPid then
      let parked : Task := { p with state := TASK_CHECKPOINTING }
      let resumed : Task := { parked with state := savedState }
      some { ret := 0,
             finalTask := { resumed with needCheckpoint := false },
             finalGroup := { g with barrier := g.barrier + 1 },
             events := [.incBarrier, .park, .restoreState savedState,
                        .clearFlag p.pid],
             captureResult := none }
    else if reached then
      let cr := do_checkpoint_process env g
      some { ret := 0,
             finalTask := { p with needCheckpoint := false },
             finalGroup := { g with barrier := 0 },
             events := .incBarrier :: .capture ::
               wake_up_thread_group wakeOk g ++
               [.resetBarrier, .clearFlag p.pid],
             captureResult := some cr }
    else
      some { ret := 0,
             finalTask := { p with needCheckpoint := false },
             finalGroup := { g with barrier := 0 },
             events := .incBarrier :: barrier_timeout_wakeup g ++
               [.resetBarrier, .clearFlag p.pid],
             captureResult := none }

/-- Observable events of the dispatcher `checkpoint_process`. -/
inductive DEv where
  | lock
  | unlock
  | setFlag (pid : Int)
  | wakeAllState (pid : Int)
  | kick (pid : Int)
deriving Repr, DecidableEq

/-- Result of the dispatcher: return value, event trace, updated group. -/
structure DispatchResult where
  ret : Int
  events : List DEv
  finalGroup : TG
deriving Repr, DecidableEq

/-- Per-thread body of the dispatcher loop: set `TIF_NEED_CHECKPOINT`,
`wake_up_state(t, TASK_ALL)`, and `kick_process(t)` exactly when the wake
found no blocked context. -/
def dispatch_one (wakeOk : Int → Bool) (t : Task) : List DEv :=
  [.setFlag t.pid, .wakeAllState t.pid] ++
    (if wakeOk t.pid then [] else [.kick t.pid])

/-- `checkpoint_process` (core.c lines 220-236): under `tasklist_lock`, for
every thread of the group set the checkpoint flag, attempt an any-state wake,
and kick the thread if the wake failed. Always returns 0. -/
def checkpoint_process (wakeOk : Int → Bool) (g : TG) : DispatchResult :=
  { ret := 0,
    events := .lock :: g.threads.flatMap (dispatch_one wakeOk) ++ [.unlock],
    finalGroup := { g with
      threads := g.threads.map (fun t => { t with needCheckpoint := true }) } }

/-- `SYSCALL_DEFINE1(checkpoint_process)` (core.c lines 238-255): look up the
pid (`lookup` oracle); `-ESRCH` (-3) if absent, else the dispatcher's return
value. -/
def sys_checkpoint_process (wakeOk : Int → Bool) (lookup : Option TG) : Int :=
  match lookup with
  | none => -3
  | some g => (checkpoint_process wakeOk g).ret

/- Concrete instances used by witnesses and counterexamples. -/

/-- A leader task with pid 1. -/
def tLeader : Task := { pid := 1, tgid := 1, state := 0, needCheckpoint := true }

/-- A non-leader task with pid 2, in a distinctive run state. -/
def tWorker : Task := { pid := 2, tgid := 1, state := 1, needCheckpoint := true }

/-- A two-thread group led by pid 1, barrier 0. -/
def gTwo : TG := { leaderPid := 1, threads := [tLeader, tWorker],
                   nrThreads := 2, barrier := 0 }

/-- A single-thread group led by pid 1. -/
def gOne : TG := { leaderPid := 1, threads := [tLeader],
                   nrThreads := 1, barrier := 0 }

/-- A capture environment in which every step succeeds. -/
def envOK : CaptureEnv := { allocOk := true, openFilesRet := 0, signalsRet := 0 }

/-- A capture environment in which `save_signals` fails with -5 after
`save_open_files` succeeded. -/
def envSigFail : CaptureEnv :=
  { allocOk := true, openFilesRet := 0, signalsRet := -5 }

/-- A wake oracle that finds a blocked context only for pid 1. -/
def wakeOnlyPid1 : Int → Bool := fun q => q == 1

/-- A wake oracle that always succeeds. -/
def wakeAlways : Int → Bool := fun _ => true


/- Helper lemmas about the wake helpers' traces (shared across claims). -/

theorem mem_wake_up_thread_group_shape {wakeOk : Int → Bool} {g : TG} {e : CTEv}
    (he : e ∈ wake_up_thread_group wakeOk g) :
    (∃ q, e = CTEv.wakeScoped q) ∨ (∃ q, e = CTEv.warnWakeFail q) := by
  simp only [wake_up_thread_group, List.mem_flatMap] at he
  obtain ⟨t, -, ht⟩ := he
  rcases List.mem_cons.mp ht with h | h
  · exact Or.inl ⟨t.pid, h⟩
  · split at h
    · cases h
    · exact Or.inr ⟨t.pid, List.mem_singleton.mp h⟩

theorem mem_barrier_timeout_wakeup_shape {g : TG} {e : CTEv}
    (he : e ∈ barrier_timeout_wakeup g) :
    (∃ q s b, e = CTEv.logThread q s b) ∨ (∃ q, e = CTEv.wakeBroad q) := by
  simp only [barrier_timeout_wakeup, List.mem_flatMap] at he
  obtain ⟨t, -, ht⟩ := he
  rcases List.mem_cons.mp ht with h | h
  · exact Or.inl ⟨t.pid, t.state, t.needCheckpoint, h⟩
  · exact Or.inr ⟨t.pid, List.mem_singleton.mp h⟩

theorem count_capture_wutg (wakeOk : Int → Bool) (g : TG) :
    (wake_up_thread_group wakeOk g).count CTEv.capture = 0 := by
  rw [List.count_eq_zero]
  intro h
  rcases mem_wake_up_thread_group_shape h with ⟨q, hq⟩ | ⟨q, hq⟩ <;> simp at hq

theorem count_capture_btw (g : TG) :
    (barrier_timeout_wakeup g).count CTEv.capture = 0 := by
  rw [List.count_eq_zero]
  intro h
  rcases mem_barrier_timeout_wakeup_shape h with ⟨q, s, b, hq⟩ | ⟨q, hq⟩ <;> simp at hq

theorem count_inc_wutg (wakeOk : Int → Bool) (g : TG) :
    (wake_up_thread_group wakeOk g).count CTEv.incBarrier = 0 := by
  rw [List.count_eq_zero]
  intro h
  rcases mem_wake_up_thread_group_shape h with ⟨q, hq⟩ | ⟨q, hq⟩ <;> simp at hq

theorem count_inc_btw (g : TG) :
    (barrier_timeout_wakeup g).count CTEv.incBarrier = 0 := by
  rw [List.count_eq_zero]
  intro h
  rcases mem_barrier_timeout_wakeup_shape h with ⟨q, s, b, hq⟩ | ⟨q, hq⟩ <;> simp at hq

theorem wakeBroad_mem_btw {g : TG} {t : Task} (ht : t ∈ g.threads) :
    CTEv.wakeBroad t.pid ∈ barrier_timeout_wakeup g := by
  simp only [barrier_timeout_wakeup, List.mem_flatMap]
  exact ⟨t, ht, by simp⟩

theorem logThread_mem_btw {g : TG} {t : Task} (ht : t ∈ g.threads) :
    CTEv.logThread t.pid t.state t.needCheckpoint ∈ barrier_timeout_wakeup g := by
  simp only [barrier_timeout_wakeup, List.mem_flatMap]
  exact ⟨t, ht, by simp⟩

/-- C10: `checkpoint_thread` has the unstated precondition that the caller's
`TIF_NEED_CHECKPOINT` flag is set: the `BUG_ON` fires (modelled as `none`)
exactly when the flag is clear, and every invocation with the flag set
proceeds normally. -/
theorem checkpoint_thread_requires_flag
    (env : CaptureEnv) (wakeOk : Int → Bool) (reached : Bool) (g : TG) (p : Task) :
    (checkpoint_thread env wakeOk reached g p = none ↔ p.needCheckpoint = false) ∧
    (p.needCheckpoint = true →
      ∃ r, checkpoint_thread env wakeOk reached g p = some r) := by
  unfold checkpoint_thread
  cases hp : p.needCheckpoint
  · simp
  · rw [if_neg (by simp)]
    dsimp only
    refine ⟨⟨fun hc => ?_, fun hc => ?_⟩, fun _ => ?_⟩
    · exfalso
      revert hc
      split
      · simp
      · split <;> simp
    · simp at hc
    · split
      · exact ⟨_, rfl⟩
      · split <;> exact ⟨_, rfl⟩

/-- C5: a non-leader thread's run state after returning from
`checkpoint_thread` equals its state on entry (saved before parking,
restored verbatim after `schedule()`), and the thread did park. -/
theorem checkpoint_thread_nonleader_state_roundtrip
    (env : CaptureEnv) (wakeOk : Int → Bool) (reached : Bool) (g : TG) (p : Task)
    (h : p.needCheckpoint = true) (hnl : p.pid ≠ g.leaderPid) :
    ∃ r, checkpoint_thread env wakeOk reached g p = some r ∧
      CTEv.park ∈ r.events ∧
      CTEv.restoreState p.state ∈ r.events ∧
      r.finalTask.state = p.state ∧
      r.finalTask.pid = p.pid := by
  unfold checkpoint_thread
  simp [h, hnl]

/-- C5 witness: the concrete worker thread of `gTwo` round-trips its run
state 1 through the rendezvous. -/
theorem checkpoint_thread_nonleader_state_roundtrip_witness :
    tWorker.needCheckpoint = true ∧ tWorker.pid ≠ gTwo.leaderPid ∧
    ∃ r, checkpoint_thread envOK wakeAlways true gTwo tWorker = some r ∧
      CTEv.park ∈ r.events ∧
      CTEv.restoreState tWorker.state ∈ r.events ∧
      r.finalTask.state = tWorker.state ∧
      r.finalTask.pid = tWorker.pid :=
  ⟨by decide, by decide,
   checkpoint_thread_nonleader_state_roundtrip envOK wakeAlways true gTwo tWorker
     (by decide) (by decide)⟩

/-- C7 counterexample: the diagnostic-build default of the barrier timeout is
5000 ms and the non-diagnostic default is 500 ms, so the diagnostic default is
NOT strictly shorter than the non-diagnostic one. -/
theorem barrier_timeout_debug_not_shorter :
    checkpoint_barrier_timeout_msec true = 5000 ∧
    checkpoint_barrier_timeout_msec false = 500 ∧
    ¬ checkpoint_barrier_timeout_msec true < checkpoint_barrier_timeout_msec false := by
  decide

/-- C7 amended: the barrier timeout has two build-dependent defaults, and the
diagnostic (debug) default is strictly LONGER than the non-diagnostic one. -/
theorem barrier_timeout_debug_longer :
    checkpoint_barrier_timeout_msec false < checkpoint_barrier_timeout_msec true := by
  decide


/-- C1: per `checkpoint_thread` invocation the capture runs at most once, and
only on the leader branch: a thread with `p != p->group_leader` parks and
returns without any capture call. -/
theorem checkpoint_thread_capture_leader_only
    (env : CaptureEnv) (wakeOk : Int → Bool) (reached : Bool) (g : TG) (p : Task)
    (h : p.needCheckpoint = true) :
    ∃ r, checkpoint_thread env wakeOk reached g p = some r ∧
      r.events.count CTEv.capture ≤ 1 ∧
      (p.pid ≠ g.leaderPid →
        r.events.count CTEv.capture = 0 ∧ r.captureResult = none ∧
        CTEv.park ∈ r.events) := by
  unfold checkpoint_thread
  rw [if_neg (by simp [h])]
  dsimp only
  by_cases hnl : p.pid ≠ g.leaderPid
  · rw [if_pos hnl]
    refine ⟨_, rfl, ?_, fun _ => ⟨?_, rfl, ?_⟩⟩ <;> simp [List.count_cons]
  · rw [if_neg hnl]
    split
    · refine ⟨_, rfl, ?_, fun hc => absurd hc hnl⟩
      simp [List.count_cons, List.count_append, count_capture_wutg]
    · refine ⟨_, rfl, ?_, fun hc => absurd hc hnl⟩
      simp [List.count_cons, List.count_append, count_capture_btw]

/-- C1 witness: the leader of the two-thread group captures exactly once on
the full-arrival path. -/
theorem checkpoint_thread_capture_leader_only_witness :
    tLeader.needCheckpoint = true ∧
    (∃ r, checkpoint_thread envOK wakeAlways true gTwo tLeader = some r ∧
      r.events.count CTEv.capture ≤ 1 ∧
      (tLeader.pid ≠ gTwo.leaderPid →
        r.events.count CTEv.capture = 0 ∧ r.captureResult = none ∧
        CTEv.park ∈ r.events)) :=
  ⟨by decide,
   checkpoint_thread_capture_leader_only envOK wakeAlways true gTwo tLeader (by decide)⟩

/-- C2: if `save_signals` fails after `save_open_files` succeeded, the
orchestrator reverts the file capture exactly once, frees the fragment array,
returns the non-zero `save_signals` error, and exposes no snapshot. -/
theorem orchestrator_signal_fail_reverts
    (env : CaptureEnv) (g : TG) (hA : env.allocOk = true)
    (hF : env.openFilesRet = 0) (hS : env.signalsRet ≠ 0) :
    (__do_checkpoint_process env g).ret = env.signalsRet ∧
    (__do_checkpoint_process env g).ret ≠ 0 ∧
    (__do_checkpoint_process env g).events.count OEv.revertOpenFiles = 1 ∧
    OEv.kfree ∈ (__do_checkpoint_process env g).events ∧
    (__do_checkpoint_process env g).localPS = none := by
  unfold __do_checkpoint_process
  simp [hA, hF, hS, List.count_cons]

/-- C2 witness: with `save_signals` failing with -5 after a successful file
capture on the two-thread group, the rollback contract holds. -/
theorem orchestrator_signal_fail_reverts_witness :
    envSigFail.allocOk = true ∧ envSigFail.openFilesRet = 0 ∧
    envSigFail.signalsRet ≠ 0 ∧
    ((__do_checkpoint_process envSigFail gTwo).ret = envSigFail.signalsRet ∧
     (__do_checkpoint_process envSigFail gTwo).ret ≠ 0 ∧
     (__do_checkpoint_process envSigFail gTwo).events.count OEv.revertOpenFiles = 1 ∧
     OEv.kfree ∈ (__do_checkpoint_process envSigFail gTwo).events ∧
     (__do_checkpoint_process envSigFail gTwo).localPS = none) :=
  ⟨by decide, by decide, by decide,
   orchestrator_signal_fail_reverts envSigFail gTwo (by decide) (by decide) (by decide)⟩

/-- C3 counterexample: on the all-success run over the one-thread group the
orchestrator returns only the integer 0 to its caller; the fragment array was
allocated and is never freed, and no kfree (nor any hand-off) appears in the
trace — the snapshot does not cross the call boundary and its storage leaks. -/
theorem orchestrator_success_leaks_storage :
    (__do_checkpoint_process envOK gOne).ret = 0 ∧
    OEv.alloc 1 ∈ (__do_checkpoint_process envOK gOne).events ∧
    OEv.kfree ∉ (__do_checkpoint_process envOK gOne).events ∧
    exposed_to_caller envOK gOne = 0 := by decide

/-- C3 amended: on success the orchestrator returns 0 and its function-local
snapshot is fully populated — one per-thread fragment per live thread, keyed
by that thread's pid, plus the file and signal fragments — and the fragment
array is not freed on this path (it is freed only on the failure paths); the
snapshot never escapes the function, whose C return type is `int`. -/
theorem orchestrator_success_populates_snapshot
    (env : CaptureEnv) (g : TG) (hA : env.allocOk = true)
    (hF : env.openFilesRet = 0) (hS : env.signalsRet = 0) :
    (__do_checkpoint_process env g).ret = 0 ∧
    (∃ ps, (__do_checkpoint_process env g).localPS = some ps ∧
      ps.tasks.map SSTask.pid = g.threads.map Task.pid ∧
      ps.nrTasks = g.nrThreads ∧
      ps.filesSaved = true ∧ ps.signalsSaved = true) ∧
    (∀ t ∈ g.threads,
      OEv.saveThreadRegs t.pid ∈ (__do_checkpoint_process env g).events) ∧
    OEv.saveOpenFiles ∈ (__do_checkpoint_process env g).events ∧
    OEv.saveSignals ∈ (__do_checkpoint_process env g).events ∧
    OEv.kfree ∉ (__do_checkpoint_process env g).events := by
  simp only [__do_checkpoint_process]
  rw [if_neg (by simp [hA]), if_neg (by simp [hF]), if_neg (by simp [hS])]
  refine ⟨rfl, ⟨_, rfl, ?_, rfl, rfl, rfl⟩, ?_, ?_, ?_, ?_⟩
  · simp [List.map_map, Function.comp]
  · intro t ht
    simp only [List.mem_append, List.mem_map]
    exact Or.inr ⟨t, ht, rfl⟩
  · simp
  · simp
  · simp

/-- C3 amended witness: the all-success run over the two-thread group yields
the populated local snapshot. -/
theorem orchestrator_success_populates_snapshot_witness :
    envOK.allocOk = true ∧ envOK.openFilesRet = 0 ∧ envOK.signalsRet = 0 ∧
    ((__do_checkpoint_process envOK gTwo).ret = 0 ∧
     (∃ ps, (__do_checkpoint_process envOK gTwo).localPS = some ps ∧
       ps.tasks.map SSTask.pid = gTwo.threads.map Task.pid ∧
       ps.nrTasks = gTwo.nrThreads ∧
       ps.filesSaved = true ∧ ps.signalsSaved = true) ∧
     (∀ t ∈ gTwo.threads,
       OEv.saveThreadRegs t.pid ∈ (__do_checkpoint_process envOK gTwo).events) ∧
     OEv.saveOpenFiles ∈ (__do_checkpoint_process envOK gTwo).events ∧
     OEv.saveSignals ∈ (__do_checkpoint_process envOK gTwo).events ∧
     OEv.kfree ∉ (__do_checkpoint_process envOK gTwo).events) :=
  ⟨by decide, by decide, by decide,
   orchestrator_success_populates_snapshot envOK gTwo (by decide) (by decide) (by decide)⟩

/-- Shape of dispatcher-loop events (shared helper). -/
theorem mem_dispatch_one_shape {wakeOk : Int → Bool} {t : Task} {e : DEv}
    (he : e ∈ dispatch_one wakeOk t) :
    (∃ q, e = DEv.setFlag q) ∨ (∃ q, e = DEv.wakeAllState q) ∨
    (∃ q, e = DEv.kick q) := by
  unfold dispatch_one at he
  rcases List.mem_append.mp he with h | h
  · rcases List.mem_cons.mp h with h1 | h1
    · exact Or.inl ⟨t.pid, h1⟩
    · exact Or.inr (Or.inl ⟨t.pid, List.mem_singleton.mp h1⟩)
  · split at h
    · cases h
    · exact Or.inr (Or.inr ⟨t.pid, List.mem_singleton.mp h⟩)

theorem kick_mem_dispatch_one {wakeOk : Int → Bool} {t : Task} {q : Int} :
    DEv.kick q ∈ dispatch_one wakeOk t ↔ (q = t.pid ∧ wakeOk t.pid = false) := by
  unfold dispatch_one
  split <;> simp_all

theorem count_lock_dispatch (wakeOk : Int → Bool) (g : TG) :
    (g.threads.flatMap (dispatch_one wakeOk)).count DEv.lock = 0 := by
  rw [List.count_eq_zero]
  intro h
  obtain ⟨t, -, ht⟩ := List.mem_flatMap.mp h
  rcases mem_dispatch_one_shape ht with ⟨q, hq⟩ | ⟨q, hq⟩ | ⟨q, hq⟩ <;> simp at hq

theorem count_unlock_dispatch (wakeOk : Int → Bool) (g : TG) :
    (g.threads.flatMap (dispatch_one wakeOk)).count DEv.unlock = 0 := by
  rw [List.count_eq_zero]
  intro h
  obtain ⟨t, -, ht⟩ := List.mem_flatMap.mp h
  rcases mem_dispatch_one_shape ht with ⟨q, hq⟩ | ⟨q, hq⟩ | ⟨q, hq⟩ <;> simp at hq

/-- C4: on barrier timeout the leader performs no capture, broadly wakes every
thread in the group with the any-state wake while logging each thread's id,
state and pending flag, and resets the arrival counter to 0; and every
invocation of `checkpoint_thread` ends with the caller's checkpoint-requested
flag cleared. -/
theorem checkpoint_thread_timeout_abort
    (env : CaptureEnv) (wakeOk : Int → Bool) (g : TG) (p : Task)
    (h : p.needCheckpoint = true) (hl : p.pid = g.leaderPid) :
    ∃ r, checkpoint_thread env wakeOk false g p = some r ∧
      r.events.count CTEv.capture = 0 ∧
      r.captureResult = none ∧
      (∀ t ∈ g.threads, CTEv.wakeBroad t.pid ∈ r.events ∧
        CTEv.logThread t.pid t.state t.needCheckpoint ∈ r.events) ∧
      r.finalGroup.barrier = 0 ∧
      r.finalTask.needCheckpoint = false ∧
      (∀ (reached : Bool) (q : Task) (r' : CTResult),
        checkpoint_thread env wakeOk reached g q = some r' →
          r'.finalTask.needCheckpoint = false) := by
  unfold checkpoint_thread
  rw [if_neg (by simp [h])]
  dsimp only
  rw [if_neg (by simp [hl]), if_neg (by simp)]
  refine ⟨_, rfl, ?_, rfl, ?_, rfl, rfl, ?_⟩
  · simp [List.count_cons, List.count_append, count_capture_btw]
  · intro t ht
    exact ⟨List.mem_cons_of_mem _ (List.mem_append_left _ (wakeBroad_mem_btw ht)),
           List.mem_cons_of_mem _ (List.mem_append_left _ (logThread_mem_btw ht))⟩
  · intro reached q r' hr'
    split at hr'
    · simp at hr'
    · split at hr'
      · injection hr' with h2
        subst h2
        rfl
      · split at hr' <;> (injection hr' with h2; subst h2; rfl)

/-- C4 witness: a concrete timeout run of the two-thread group's leader. -/
theorem checkpoint_thread_timeout_abort_witness :
    tLeader.needCheckpoint = true ∧ tLeader.pid = gTwo.leaderPid ∧
    (∃ r, checkpoint_thread envOK wakeAlways false gTwo tLeader = some r ∧
      r.events.count CTEv.capture = 0 ∧
      r.captureResult = none ∧
      (∀ t ∈ gTwo.threads, CTEv.wakeBroad t.pid ∈ r.events ∧
        CTEv.logThread t.pid t.state t.needCheckpoint ∈ r.events) ∧
      r.finalGroup.barrier = 0 ∧
      r.finalTask.needCheckpoint = false ∧
      (∀ (reached : Bool) (q : Task) (r' : CTResult),
        checkpoint_thread envOK wakeAlways reached gTwo q = some r' →
          r'.finalTask.needCheckpoint = false)) :=
  ⟨by decide, by decide,
   checkpoint_thread_timeout_abort envOK wakeAlways gTwo tLeader (by decide) (by decide)⟩

/-- C6: every participating thread increments the shared arrival counter
exactly once per `checkpoint_thread` invocation, and the leader leaves the
counter at 0 at the end of the attempt on both the success path and the
timeout path (re-establishing the all-zero precondition of the next attempt),
while a non-leader leaves it incremented by exactly its own arrival. -/
theorem checkpoint_thread_barrier_once_and_reset
    (env : CaptureEnv) (wakeOk : Int → Bool) (reached : Bool) (g : TG) (p : Task)
    (h : p.needCheckpoint = true) :
    ∃ r, checkpoint_thread env wakeOk reached g p = some r ∧
      r.events.count CTEv.incBarrier = 1 ∧
      (p.pid = g.leaderPid → r.finalGroup.barrier = 0) ∧
      (p.pid ≠ g.leaderPid → r.finalGroup.barrier = g.barrier + 1) := by
  unfold checkpoint_thread
  rw [if_neg (by simp [h])]
  dsimp only
  by_cases hnl : p.pid ≠ g.leaderPid
  · rw [if_pos hnl]
    refine ⟨_, rfl, ?_, fun hc => absurd hc hnl, fun _ => rfl⟩
    simp [List.count_cons]
  · rw [if_neg hnl]
    split
    · refine ⟨_, rfl, ?_, fun _ => rfl, fun hc => absurd hc hnl⟩
      simp [List.count_cons, List.count_append, count_inc_wutg]
    · refine ⟨_, rfl, ?_, fun _ => rfl, fun hc => absurd hc hnl⟩
      simp [List.count_cons, List.count_append, count_inc_btw]

/-- C6 witness: the concrete leader of the two-thread group on the
full-arrival path. -/
theorem checkpoint_thread_barrier_once_and_reset_witness :
    tLeader.needCheckpoint = true ∧
    (∃ r, checkpoint_thread envOK wakeAlways true gTwo tLeader = some r ∧
      r.events.count CTEv.incBarrier = 1 ∧
      (tLeader.pid = gTwo.leaderPid → r.finalGroup.barrier = 0) ∧
      (tLeader.pid ≠ gTwo.leaderPid → r.finalGroup.barrier = gTwo.barrier + 1)) :=
  ⟨by decide,
   checkpoint_thread_barrier_once_and_reset envOK wakeAlways true gTwo tLeader (by decide)⟩

/-- C8: the dispatcher sets every thread's checkpoint-requested flag and
attempts an any-state wake on it; it kicks a thread exactly when the wake
found no blocked context; and the whole traversal happens between the single
lock acquisition and the single lock release. -/
theorem checkpoint_process_arms_every_thread
    (wakeOk : Int → Bool) (g : TG) :
    (checkpoint_process wakeOk g).ret = 0 ∧
    (∀ t ∈ g.threads,
      DEv.setFlag t.pid ∈ (checkpoint_process wakeOk g).events ∧
      DEv.wakeAllState t.pid ∈ (checkpoint_process wakeOk g).events ∧
      (DEv.kick t.pid ∈ (checkpoint_process wakeOk g).events ↔ wakeOk t.pid = false)) ∧
    (∀ t ∈ (checkpoint_process wakeOk g).finalGroup.threads, t.needCheckpoint = true) ∧
    (checkpoint_process wakeOk g).events.head? = some DEv.lock ∧
    (checkpoint_process wakeOk g).events.getLast? = some DEv.unlock ∧
    (checkpoint_process wakeOk g).events.count DEv.lock = 1 ∧
    (checkpoint_process wakeOk g).events.count DEv.unlock = 1 := by
  refine ⟨rfl, ?_, ?_, rfl, ?_, ?_, ?_⟩
  · intro t ht
    refine ⟨?_, ?_, ?_, ?_⟩
    · exact List.mem_cons_of_mem _ (List.mem_append_left _
        (List.mem_flatMap.mpr ⟨t, ht, by simp [dispatch_one]⟩))
    · exact List.mem_cons_of_mem _ (List.mem_append_left _
        (List.mem_flatMap.mpr ⟨t, ht, by simp [dispatch_one]⟩))
    · intro hk
      have hmem : DEv.kick t.pid ∈ g.threads.flatMap (dispatch_one wakeOk) := by
        rcases List.mem_cons.mp hk with h1 | h1
        · exact absurd h1 (by simp)
        · rcases List.mem_append.mp h1 with h2 | h2
          · exact h2
          · exact absurd (List.mem_singleton.mp h2) (by simp)
      obtain ⟨s, -, hs⟩ := List.mem_flatMap.mp hmem
      obtain ⟨hpid, hw⟩ := kick_mem_dispatch_one.mp hs
      rw [hpid]
      exact hw
    · intro hw
      exact List.mem_cons_of_mem _ (List.mem_append_left _
        (List.mem_flatMap.mpr ⟨t, ht, kick_mem_dispatch_one.mpr ⟨rfl, hw⟩⟩))
  · intro t ht
    simp only [checkpoint_process, List.mem_map] at ht
    obtain ⟨s, -, rfl⟩ := ht
    rfl
  · rw [show (checkpoint_process wakeOk g).events =
        (DEv.lock :: g.threads.flatMap (dispatch_one wakeOk)) ++ [DEv.unlock] from rfl,
      List.getLast?_concat]
  · simp [checkpoint_process, List.count_cons, List.count_append,
      count_lock_dispatch]
  · simp [checkpoint_process, List.count_cons, List.count_append,
      count_unlock_dispatch]

/-- C8 witness: with a wake oracle succeeding only for pid 1, the dispatcher
kicks the worker (pid 2) but not the leader, and arms both. -/
theorem checkpoint_process_arms_every_thread_witness :
    (checkpoint_process wakeOnlyPid1 gTwo).ret = 0 ∧
    DEv.setFlag tWorker.pid ∈ (checkpoint_process wakeOnlyPid1 gTwo).events ∧
    DEv.kick tWorker.pid ∈ (checkpoint_process wakeOnlyPid1 gTwo).events := by
  have h := checkpoint_process_arms_every_thread wakeOnlyPid1 gTwo
  have hw := h.2.1 tWorker (by decide)
  exact ⟨h.1, hw.1, hw.2.2.mpr (by decide)⟩

/-- C9: the trigger syscall returns -ESRCH exactly when the pid lookup fails
and 0 otherwise; the rendezvous outcome is never surfaced to the trigger
caller — `checkpoint_thread` returns 0 for every capture-environment oracle,
discarding the result of `do_checkpoint_process`. -/
theorem sys_checkpoint_trigger_error_surface
    (wakeOk : Int → Bool) :
    sys_checkpoint_process wakeOk none = -3 ∧
    (∀ g, sys_checkpoint_process wakeOk (some g) = 0) ∧
    (∀ (env : CaptureEnv) (reached : Bool) (g : TG) (p : Task) (r : CTResult),
      checkpoint_thread env wakeOk reached g p = some r → r.ret = 0) := by
  refine ⟨rfl, fun g => rfl, ?_⟩
  intro env reached g p r hr
  unfold checkpoint_thread at hr
  split at hr
  · simp at hr
  · dsimp only at hr
    split at hr
    · injection hr with h2
      subst h2
      rfl
    · split at hr <;> (injection hr with h2; subst h2; rfl)

/-- C9 witness: concrete lookups, plus a leader run under a failing capture
environment still returning 0. -/
theorem sys_checkpoint_trigger_error_surface_witness :
    sys_checkpoint_process wakeAlways none = -3 ∧
    sys_checkpoint_process wakeAlways (some gTwo) = 0 := by
  have h := sys_checkpoint_trigger_error_surface wakeAlways
  exact ⟨h.1, h.2.1 gTwo⟩

/-- C10 witness: invoking `checkpoint_thread` on the leader with the flag
cleared is fatal, and with the flag set it proceeds. -/
theorem checkpoint_thread_requires_flag_witness :
    checkpoint_thread envOK wakeAlways true gTwo
      { tLeader with needCheckpoint := false } = none ∧
    (∃ r, checkpoint_thread envOK wakeAlways true gTwo tLeader = some r) := by
  have h1 := checkpoint_thread_requires_flag envOK wakeAlways true gTwo
    { tLeader with needCheckpoint := false }
  have h2 := checkpoint_thread_requires_flag envOK wakeAlways true gTwo tLeader
  exact ⟨h1.1.mpr (by decide), h2.2 (by decide)⟩

end LegoCheckpoint
